import Mathlib

/-!
Verification of the configuration synthesis engine of the
observability-blueprint backend (src/backend/server.py): the structured
document model, the minimal YAML-like renderer `_yaml_dump_like`, the
sink-to-exporter mapping and pipeline synthesis of
`_build_collector_config`, and the `generate_config` entry point.
Python dictionaries become ordered association lists (Python dicts preserve
insertion order; assignment to an existing key keeps its position),
`Optional[...]` becomes `Option`, and Python truthiness of optional
integers is modelled explicitly.
-/

namespace Aether

/-- Structured document value: the tree of dict / list / scalar values that
`_build_collector_config` constructs and `_yaml_dump_like` renders. -/
inductive Value where
  | str (s : String)
  | int (n : Int)
  | bool (b : Bool)
  | map (entries : List (String × Value))
  | seq (items : List Value)
deriving Repr

/-- The composite test of the renderer, `isinstance(v, (dict, list))`. -/
def Value.isComposite : Value → Bool
  | .map _ => true
  | .seq _ => true
  | _ => false

/-- Python `f"{v}"` for a scalar: strings unquoted, booleans `True`/`False`. -/
def Value.pyText : Value → String
  | .str s => s
  | .int n => toString n
  | .bool b => if b then "True" else "False"
  | .map _ => ""
  | .seq _ => ""

/-- Inline rendering of a scalar inside a dict or list: strings are
double-quoted (`f"{k}: \"{v}\""`), other scalars printed literally. -/
def Value.inlineText : Value → String
  | .str s => "\"" ++ s ++ "\""
  | v => v.pyText

/-- The two-space indentation unit, `"  " * indent`. -/
def spaces (indent : Nat) : String :=
  String.join (List.replicate indent "  ")

mutual

/-- The renderer `_yaml_dump_like(d, indent)` of src/backend/server.py: a small
YAML-like emitter over dict / list / scalar structures, joining the
accumulated lines with newlines. -/
def yamlDumpLike : Value → Nat → String
  | .map entries, indent => String.intercalate "\n" (dumpMapEntries entries indent)
  | .seq items, indent => String.intercalate "\n" (dumpSeqItems items indent)
  | v, indent => spaces indent ++ v.pyText

/-- The dict branch of `_yaml_dump_like`: each key emits `key:` followed by
the recursive rendering at indent+1 when the value is composite, else
`key: <inline scalar>`. -/
def dumpMapEntries : List (String × Value) → Nat → List String
  | [], _ => []
  | (k, v) :: rest, indent =>
    (if v.isComposite then
      [spaces indent ++ k ++ ":", yamlDumpLike v (indent + 1)]
    else
      [spaces indent ++ k ++ ": " ++ v.inlineText]) ++ dumpMapEntries rest indent

/-- The list branch of `_yaml_dump_like`: each item emits `-` followed by
the recursive rendering at indent+1 when composite, else `- <inline>`. -/
def dumpSeqItems : List Value → Nat → List String
  | [], _ => []
  | v :: rest, indent =>
    (if v.isComposite then
      [spaces indent ++ "-", yamlDumpLike v (indent + 1)]
    else
      [spaces indent ++ "- " ++ v.inlineText]) ++ dumpSeqItems rest indent

end

/-- The sink `config` mapping, restricted to the keys the synthesis code
reads (`Dict[str, Any]` in the source; each key may be absent). -/
structure SinkConfig where
  port : Option Int
  endpoint : Option String
  insecure : Option Bool
  brokers : Option (List String)
  topic : Option String
  token : Option String
  endpoints : Option (List String)
  index : Option String
deriving Repr, DecidableEq

/-- An all-absent sink config (`config = {}`). -/
def SinkConfig.empty : SinkConfig :=
  ⟨none, none, none, none, none, none, none, none⟩

/-- The `Sink` model of server.py (`created_at` as an abstract Nat). -/
structure Sink where
  id : String
  name : Option String
  type : String
  config : SinkConfig
  project_id : Option String
  created_at : Nat
deriving Repr, DecidableEq

/-- The `Agent` model of server.py (`created_at` as an abstract Nat). -/
structure Agent where
  id : String
  name : String
  mode : String
  project_id : Option String
  sink_ids : List String
  scrape_targets : List String
  labels : List (String × String)
  token : String
  created_at : Nat
deriving Repr, DecidableEq

/-- The `Project` model of server.py. -/
structure Project where
  id : String
  name : String
  created_at : Nat
deriving Repr, DecidableEq

/-- The constant `SUPPORTED_SINK_TYPES` (a set in the source; only membership is used). -/
def SUPPORTED_SINK_TYPES : List String :=
  ["prometheus", "kafka", "otlp", "splunk_hec", "elasticsearch"]

/-- The constant `SUPPORTED_SIGNALS` (a set in the source; only membership is used). -/
def SUPPORTED_SIGNALS : List String :=
  ["metrics", "logs", "traces"]

/-- Python `x or d` on an `Optional[int]`: `None` and `0` are falsy. -/
def pyOr (x : Option Int) (d : Int) : Int :=
  match x with
  | none => d
  | some p => if p = 0 then d else p

/-- Python dict assignment `m[k] = v` on an insertion-ordered dict: an
existing key keeps its position and gets the new value, a new key is
appended. -/
def insertAssoc (m : List (String × Value)) (k : String) (v : Value) :
    List (String × Value) :=
  if m.any (fun p => p.1 = k) then
    m.map (fun p => if p.1 = k then (k, v) else p)
  else
    m ++ [(k, v)]

/-- One iteration of the `for s in sinks` loop of `_build_collector_config`
(lines 307-342): dispatch on `s.type`, write the exporter fragment into the
exporters dict and append the exporter key to `enabled_exporters`. -/
def mapSinkStep (acc : List (String × Value) × List String) (s : Sink)
    (promPort : Option Int) : List (String × Value) × List String :=
  if s.type = "prometheus" then
    (insertAssoc acc.1 "prometheus" (.map
      [("endpoint", .str ("0.0.0.0:" ++ toString (pyOr promPort 8889))),
       ("namespace", .str "aether")]),
     acc.2 ++ ["prometheus"])
  else if s.type = "otlp" then
    let cfg : List (String × Value) :=
      [("endpoint", .str (s.config.endpoint.getD "localhost:4317"))]
    let cfg := if s.config.insecure.getD true then
        cfg ++ [("tls", .map [("insecure", .bool true)])]
      else cfg
    (insertAssoc acc.1 "otlp" (.map cfg), acc.2 ++ ["otlp"])
  else if s.type = "kafka" then
    (insertAssoc acc.1 "kafka" (.map
      [("brokers", .seq ((s.config.brokers.getD ["localhost:9092"]).map .str)),
       ("topic", .str (s.config.topic.getD "otlp_data"))]),
     acc.2 ++ ["kafka"])
  else if s.type = "splunk_hec" then
    (insertAssoc acc.1 "splunk_hec" (.map
      [("token", .str (s.config.token.getD "CHANGE_ME")),
       ("endpoint", .str (s.config.endpoint.getD "https://splunk:8088/services/collector")),
       ("insecure_skip_verify", .bool true)]),
     acc.2 ++ ["splunk_hec"])
  else if s.type = "elasticsearch" then
    (insertAssoc acc.1 "elasticsearch" (.map
      [("endpoints", .seq ((s.config.endpoints.getD ["http://elasticsearch:9200"]).map .str)),
       ("index", .str (s.config.index.getD "app-logs-%\x7b+yyyy.MM.dd\x7d"))]),
     acc.2 ++ ["elasticsearch"])
  else acc

/-- The whole sink loop: exporters map and enabled exporter key list. -/
def accumExporters (sinks : List Sink) (promPort : Option Int) :
    List (String × Value) × List String :=
  sinks.foldl (fun acc s => mapSinkStep acc s promPort) ([], [])

/-- The synthesizer `_build_collector_config(agent, sinks, signals, prom_exporter_port)`:
receivers, processors, exporters and per-signal pipelines assembled into
one document. -/
def buildCollectorConfig (agent : Agent) (sinks : List Sink)
    (signals : List String) (promPort : Option Int) : Value :=
  let receivers : List (String × Value) :=
    [("otlp", .map [("protocols", .map
      [("grpc", .map [("endpoint", .str "0.0.0.0:4317")]),
       ("http", .map [("endpoint", .str "0.0.0.0:4318")])])])]
  let receivers :=
    if agent.scrape_targets ≠ [] then
      receivers ++ [("prometheus", .map [("config", .map
        [("scrape_configs", .seq [.map
          [("job_name", .str "aether-scrape"),
           ("metrics_path", .str "/metrics"),
           ("static_configs", .seq [.map
             [("targets", .seq (agent.scrape_targets.map .str))]])]])])])]
    else receivers
  let processors : List (String × Value) :=
    [("memory_limiter", .map
      [("limit_mib", .int 256), ("spike_limit_mib", .int 64),
       ("check_interval", .str "5s")]),
     ("batch", .map
      [("timeout", .str "1s"), ("send_batch_size", .int 512),
       ("send_batch_max_size", .int 1024)])]
  let ex := accumExporters sinks promPort
  let recvListMetrics : List String :=
    ["otlp"] ++ (if receivers.any (fun p => p.1 = "prometheus") then ["prometheus"] else [])
  let pipelines : List (String × Value) :=
    (if "metrics" ∈ signals then
      [("metrics", .map
        [("receivers", .seq (recvListMetrics.map .str)),
         ("processors", .seq [.str "memory_limiter", .str "batch"]),
         ("exporters", .seq ((if ex.2 = [] then ["prometheus"] else ex.2).map .str))])]
     else []) ++
    (if "logs" ∈ signals then
      [("logs", .map
        [("receivers", .seq [.str "otlp"]),
         ("processors", .seq [.str "memory_limiter", .str "batch"]),
         ("exporters", .seq ((if ex.2 = [] then ["otlp"] else ex.2).map .str))])]
     else []) ++
    (if "traces" ∈ signals then
      [("traces", .map
        [("receivers", .seq [.str "otlp"]),
         ("processors", .seq [.str "memory_limiter", .str "batch"]),
         ("exporters", .seq ((if ex.2 = [] then ["otlp"] else ex.2).map .str))])]
     else [])
  .map
    [("receivers", .map receivers),
     ("processors", .map processors),
     ("exporters",
       if ex.1.isEmpty then
         .map [("prometheus", .map
           [("endpoint", .str ("0.0.0.0:" ++ toString (pyOr promPort 8889)))])]
       else .map ex.1),
     ("service", .map [("pipelines", .map pipelines)])]

/-- The external resource store (MongoDB collections), as a snapshot. -/
structure Store where
  projects : List Project
  sinks : List Sink
  agents : List Agent
deriving Repr, DecidableEq



/-- The agent lookup `db.agents.find_one` by the `id` field. -/
def findAgent (st : Store) (agentId : String) : Option Agent :=
  st.agents.find? (fun a => a.id = agentId)

/-- The `ConfigRequest` body model of server.py. -/
structure ConfigRequest where
  signals : List String
  prometheus_exporter_port : Option Int
deriving Repr, DecidableEq

/-- The signal filtering of `generate_config` (lines 396-398): keep only
supported names, default to `["metrics"]` when nothing survives. -/
def validateSignals (signals : List String) : List String :=
  let kept := signals.filter (fun s => s ∈ SUPPORTED_SIGNALS)
  if kept = [] then ["metrics"] else kept

/-- The entry point `generate_config(agent_id, body)`: load the agent (404 when absent),
resolve its sink ids against the store (missing ids silently dropped, the
store's iteration order), filter the signals, synthesize and render. The
handler performs only reads, so the store is returned unchanged. -/
def generateConfig (st : Store) (agentId : String) (body : ConfigRequest) :
    Except String String × Store :=
  match findAgent st agentId with
  | none => (.error "Agent not found", st)
  | some agent =>
    let sinks : List Sink :=
      if agent.sink_ids = [] then []
      else st.sinks.filter (fun s => s.id ∈ agent.sink_ids)
    let signals := validateSignals body.signals
    (.ok (yamlDumpLike
      (buildCollectorConfig agent sinks signals body.prometheus_exporter_port) 0), st)

/-- Key lookup in a `Value.map` (Python `d[k]` read). -/
def Value.lookup : Value → String → Option Value
  | .map entries, k => (entries.find? (fun p => p.1 = k)).map (fun p => p.2)
  | _, _ => none

/-- The keys of a `Value.map` in insertion order. -/
def Value.keys : Value → List String
  | .map entries => entries.map (fun p => p.1)
  | _ => []

/-- The `exporters` list of the pipeline for `sig` inside a synthesized
document (`cfg["service"]["pipelines"][sig]["exporters"]`). -/
def pipelineExporters (cfg : Value) (sig : String) : Option Value :=
  (((cfg.lookup "service").bind (fun v => v.lookup "pipelines")).bind
    (fun v => v.lookup sig)).bind (fun v => v.lookup "exporters")

/-- The keys of `cfg["service"]["pipelines"]` in insertion order. -/
def pipelinesKeys (cfg : Value) : List String :=
  (((cfg.lookup "service").bind (fun v => v.lookup "pipelines")).map Value.keys).getD []

/-- A prometheus sink whose config carries `port = 9999`. -/
def promSinkWithPort : Sink :=
  ⟨"sink-prom", none, "prometheus",
   ⟨some 9999, none, none, none, none, none, none, none⟩, none, 0⟩

/-- An otlp sink with endpoint `a:4317` and no other config. -/
def otlpSinkA : Sink :=
  ⟨"sink-otlp-a", none, "otlp",
   ⟨none, some "a:4317", none, none, none, none, none, none⟩, none, 0⟩

/-- An otlp sink with endpoint `b:4317` and no other config. -/
def otlpSinkB : Sink :=
  ⟨"sink-otlp-b", none, "otlp",
   ⟨none, some "b:4317", none, none, none, none, none, none⟩, none, 0⟩

/-- A concrete agent with no scrape targets. -/
def plainAgent : Agent :=
  ⟨"agent-1", "edge-1", "agent", none, [], [], [], "tok-1", 0⟩

/-- An agent like `plainAgent` but differing in name, mode, labels, token,
project id and sink ids (the scrape targets agree). -/
def otherAgent : Agent :=
  ⟨"agent-2", "edge-2", "agentless", some "proj-9", ["sink-otlp-a"],
   [], [("team", "obs")], "tok-2", 7⟩

/-- C7: rendering `Map{"a": "x", "b": Sequence["1","2"]}` at indentation 0
produces exactly `a: "x"\nb:\n  - "1"\n  - "2"`: keys followed by a colon,
strings double-quoted inline, sequence items dash-prefixed one level
deeper, two spaces per level and no tabs. -/
theorem C7_render_scenario :
    yamlDumpLike (.map [("a", .str "x"), ("b", .seq [.str "1", .str "2"])]) 0 =
      "a: \"x\"\nb:\n  - \"1\"\n  - \"2\"" := rfl

/-- C1 counterexample: a prometheus sink whose config carries `port = 9999`,
with no override supplied, is mapped to the fragment with endpoint
`0.0.0.0:8889` — not `0.0.0.0:9999` as the claim's "else the port value
present in the sink's config mapping" clause would require. -/
theorem C1_counterexample :
    (accumExporters [promSinkWithPort] none).1 =
      [("prometheus", .map [("endpoint", .str "0.0.0.0:8889"),
                            ("namespace", .str "aether")])] ∧
    ¬ (accumExporters [promSinkWithPort] none).1 =
      [("prometheus", .map [("endpoint", .str "0.0.0.0:9999"),
                            ("namespace", .str "aether")])] := by
  refine ⟨rfl, fun h => ?_⟩
  simp [accumExporters, mapSinkStep, insertAssoc, promSinkWithPort, pyOr] at h
  exact absurd h (by decide)

/-- C1 (amended): the prometheus exporter fragment is
`{endpoint: "0.0.0.0:<port>", namespace: "aether"}` where the port is the
override when supplied and non-zero, else 8889; the port in the sink's
config mapping is never consulted. -/
theorem C1_prometheus_fragment (s : Sink) (promPort : Option Int)
    (h : s.type = "prometheus") :
    (accumExporters [s] promPort).1 =
      [("prometheus", .map
        [("endpoint", .str ("0.0.0.0:" ++ toString (pyOr promPort 8889))),
         ("namespace", .str "aether")])] ∧
    (accumExporters [s] promPort).2 = ["prometheus"] := by
  simp [accumExporters, mapSinkStep, insertAssoc, h]

/-- C1 witness: the amended fragment shape at a concrete sink and a
concrete override of 9090. -/
theorem C1_prometheus_fragment_at_9090 :
    (accumExporters [promSinkWithPort] (some 9090)).1 =
      [("prometheus", .map
        [("endpoint", .str ("0.0.0.0:" ++ toString (pyOr (some 9090) 8889))),
         ("namespace", .str "aether")])] ∧
    (accumExporters [promSinkWithPort] (some 9090)).2 = ["prometheus"] :=
  C1_prometheus_fragment promSinkWithPort (some 9090) rfl

/-- C2 counterexample: two otlp sinks yield the enabled exporter key list
`["otlp", "otlp"]` — the duplicate key does not collapse in the list — and
a requested metrics pipeline's exporters list names `otlp` twice. -/
theorem C2_counterexample :
    (accumExporters [otlpSinkA, otlpSinkB] none).2 = ["otlp", "otlp"] ∧
    ¬ (accumExporters [otlpSinkA, otlpSinkB] none).2.Nodup ∧
    pipelineExporters
      (buildCollectorConfig plainAgent [otlpSinkA, otlpSinkB] ["metrics"] none)
      "metrics" = some (.seq [.str "otlp", .str "otlp"]) := by
  refine ⟨rfl, by decide, rfl⟩

/-- C2 (amended): the enabled exporter key list appends one entry (the
sink's type) for every sink of a supported type, in sink iteration order;
duplicates are retained, not collapsed — only the exporters map collapses
per type. -/
theorem C2_enabled_list (sinks : List Sink) (promPort : Option Int) :
    (accumExporters sinks promPort).2 =
      (sinks.filter (fun s => s.type ∈ SUPPORTED_SINK_TYPES)).map (fun s => s.type) := by
  have go : ∀ (sinks : List Sink) (acc : List (String × Value) × List String),
      (sinks.foldl (fun acc s => mapSinkStep acc s promPort) acc).2 =
        acc.2 ++ (sinks.filter (fun s => s.type ∈ SUPPORTED_SINK_TYPES)).map
          (fun s => s.type) := by
    intro sinks
    induction sinks with
    | nil => intro acc; simp
    | cons s rest ih =>
      intro acc
      rw [List.foldl_cons, ih]
      unfold mapSinkStep
      split_ifs <;> simp_all [SUPPORTED_SINK_TYPES]
  simpa using go sinks ([], [])

/-- C3: the otlp exporter fragment has `tls.insecure=true` exactly when the
sink's config key `insecure` is true or absent, has no `tls` key when it is
false, and its endpoint is the config endpoint when present, else
`localhost:4317`. -/
theorem C3_otlp_fragment (s : Sink) (promPort : Option Int)
    (h : s.type = "otlp") :
    ∃ fields, (accumExporters [s] promPort).1 = [("otlp", .map fields)] ∧
      (Value.map fields).lookup "endpoint" =
        some (.str (s.config.endpoint.getD "localhost:4317")) ∧
      ((Value.map fields).lookup "tls" = some (.map [("insecure", .bool true)]) ↔
        (s.config.insecure = some true ∨ s.config.insecure = none)) ∧
      (s.config.insecure = some false → (Value.map fields).lookup "tls" = none) := by
  rcases hi : s.config.insecure with _ | b
  · refine ⟨[("endpoint", .str (s.config.endpoint.getD "localhost:4317")),
        ("tls", .map [("insecure", .bool true)])], ?_, ?_, ?_, ?_⟩
    · simp [accumExporters, mapSinkStep, insertAssoc, h, hi]
    · simp [Value.lookup]
    · simp [Value.lookup]
    · simp
  · cases b
    · refine ⟨[("endpoint", .str (s.config.endpoint.getD "localhost:4317"))],
        ?_, ?_, ?_, ?_⟩
      · simp [accumExporters, mapSinkStep, insertAssoc, h, hi]
      · simp [Value.lookup]
      · simp [Value.lookup, hi]
      · simp [Value.lookup]
    · refine ⟨[("endpoint", .str (s.config.endpoint.getD "localhost:4317")),
          ("tls", .map [("insecure", .bool true)])], ?_, ?_, ?_, ?_⟩
      · simp [accumExporters, mapSinkStep, insertAssoc, h, hi]
      · simp [Value.lookup]
      · simp [Value.lookup, hi]
      · simp [hi]

/-- C3 witness: the otlp fragment properties at a concrete sink with
endpoint `a:4317` and no `insecure` key. -/
theorem C3_otlp_fragment_at_sinkA :
    ∃ fields, (accumExporters [otlpSinkA] none).1 = [("otlp", .map fields)] ∧
      (Value.map fields).lookup "endpoint" =
        some (.str (otlpSinkA.config.endpoint.getD "localhost:4317")) ∧
      ((Value.map fields).lookup "tls" = some (.map [("insecure", .bool true)]) ↔
        (otlpSinkA.config.insecure = some true ∨ otlpSinkA.config.insecure = none)) ∧
      (otlpSinkA.config.insecure = some false →
        (Value.map fields).lookup "tls" = none) :=
  C3_otlp_fragment otlpSinkA none rfl

/-- C4: when two sinks share a type, the exporters map from both equals the
map from the later sink alone (last-write-wins), and for a supported type
it holds exactly one fragment, keyed by that type. -/
theorem C4_last_write_wins (s1 s2 : Sink) (promPort : Option Int)
    (hty : s1.type = s2.type) (hs : s2.type ∈ SUPPORTED_SINK_TYPES) :
    (accumExporters [s1, s2] promPort).1 = (accumExporters [s2] promPort).1 ∧
    (accumExporters [s1, s2] promPort).1.map Prod.fst = [s2.type] := by
  simp only [SUPPORTED_SINK_TYPES, List.mem_cons, List.mem_singleton,
    List.not_mem_nil, or_false] at hs
  rcases hs with h | h | h | h | h <;>
    constructor <;>
    simp [accumExporters, mapSinkStep, insertAssoc, hty, h]

/-- C4 witness: two concrete otlp sinks with different endpoints collapse
to the later sink's fragment. -/
theorem C4_last_write_wins_at_otlp :
    (accumExporters [otlpSinkA, otlpSinkB] none).1 =
      (accumExporters [otlpSinkB] none).1 ∧
    (accumExporters [otlpSinkA, otlpSinkB] none).1.map Prod.fst =
      [otlpSinkB.type] :=
  C4_last_write_wins otlpSinkA otlpSinkB none rfl (by decide)

/-- C5: with zero resolved sinks, synthesis succeeds and the top-level
exporters map is the fallback prometheus entry bound to the override (via
Python `or`) or 8889; a requested metrics pipeline exports to
`["prometheus"]` and requested logs / traces pipelines export to
`["otlp"]`. -/
theorem C5_zero_sinks (agent : Agent) (signals : List String)
    (promPort : Option Int) :
    (buildCollectorConfig agent [] signals promPort).lookup "exporters" =
      some (.map [("prometheus", .map
        [("endpoint", .str ("0.0.0.0:" ++ toString (pyOr promPort 8889)))])]) ∧
    ("metrics" ∈ signals →
      pipelineExporters (buildCollectorConfig agent [] signals promPort) "metrics" =
        some (.seq [.str "prometheus"])) ∧
    ("logs" ∈ signals →
      pipelineExporters (buildCollectorConfig agent [] signals promPort) "logs" =
        some (.seq [.str "otlp"])) ∧
    ("traces" ∈ signals →
      pipelineExporters (buildCollectorConfig agent [] signals promPort) "traces" =
        some (.seq [.str "otlp"])) := by
  by_cases hm : "metrics" ∈ signals <;> by_cases hl : "logs" ∈ signals <;>
    by_cases ht : "traces" ∈ signals <;>
    simp [buildCollectorConfig, accumExporters, pipelineExporters,
      Value.lookup, List.find?, hm, hl, ht]

/-- C6: unrecognized signal names are silently dropped with the surviving
names' relative order preserved (the kept list is a sublist of the
request); only supported names survive; an all-invalid or empty request
behaves as `["metrics"]`; and `["metrics", "bogus"]` yields a document
whose pipelines map holds exactly the `metrics` key. -/
theorem C6_signal_filtering :
    (∀ signals : List String, (validateSignals signals).Sublist signals ∨
      validateSignals signals = ["metrics"]) ∧
    (∀ signals : List String, ∀ s ∈ validateSignals signals, s ∈ SUPPORTED_SIGNALS) ∧
    (∀ signals : List String,
      signals.filter (fun s => s ∈ SUPPORTED_SIGNALS) ≠ [] →
      validateSignals signals = signals.filter (fun s => s ∈ SUPPORTED_SIGNALS)) ∧
    (∀ signals : List String,
      signals.filter (fun s => s ∈ SUPPORTED_SIGNALS) = [] →
      validateSignals signals = ["metrics"]) ∧
    validateSignals ["metrics", "bogus"] = ["metrics"] ∧
    (∀ (agent : Agent) (sinks : List Sink) (promPort : Option Int),
      pipelinesKeys (buildCollectorConfig agent sinks
        (validateSignals ["metrics", "bogus"]) promPort) = ["metrics"]) ∧
    (∀ (st : Store) (aid : String) (promPort : Option Int),
      generateConfig st aid ⟨["bogus"], promPort⟩ =
        generateConfig st aid ⟨["metrics"], promPort⟩) := by
  refine ⟨?_, ?_, ?_, ?_, rfl, ?_, ?_⟩
  · intro signals
    by_cases hk : signals.filter (fun s => s ∈ SUPPORTED_SIGNALS) = []
    · exact Or.inr (by simp [validateSignals, hk])
    · refine Or.inl ?_
      simp only [validateSignals]
      rw [if_neg hk]
      exact List.filter_sublist signals
  · intro signals s hs
    by_cases hk : signals.filter (fun s => s ∈ SUPPORTED_SIGNALS) = []
    · simp [validateSignals, hk] at hs
      simp [hs, SUPPORTED_SIGNALS]
    · simp only [validateSignals] at hs
      rw [if_neg hk] at hs
      simpa using (List.mem_filter.mp hs).2
  · intro signals hne
    simp only [validateSignals]
    rw [if_neg hne]
  · intro signals he
    simp only [validateSignals]
    rw [if_pos he]
  · intro agent sinks promPort
    simp [buildCollectorConfig, pipelinesKeys, Value.lookup, Value.keys,
      List.find?, validateSignals, SUPPORTED_SIGNALS]
  · intro st aid promPort
    cases h : findAgent st aid <;>
      simp [generateConfig, h, validateSignals, SUPPORTED_SIGNALS]

/-- C8: `generate_config` fails (with the not-found error) exactly when the
agent id does not resolve in the store, producing no document in that case,
and the store — projects, sinks and agents — is unchanged on every call. -/
theorem C8_generate_config (st : Store) (agentId : String)
    (body : ConfigRequest) :
    ((∃ e, (generateConfig st agentId body).1 = .error e) ↔
      findAgent st agentId = none) ∧
    (generateConfig st agentId body).2 = st := by
  cases h : findAgent st agentId <;> simp [generateConfig, h]

/-- C9: synthesis followed by rendering is deterministic — equal inputs
give byte-identical text — with the top-level keys fixed in the order
receivers, processors, exporters, service and the pipelines in the order
metrics, logs, traces (each present exactly when requested). -/
theorem C9_determinism (agent : Agent) (sinks : List Sink)
    (signals : List String) (promPort : Option Int) :
    yamlDumpLike (buildCollectorConfig agent sinks signals promPort) 0 =
      yamlDumpLike (buildCollectorConfig agent sinks signals promPort) 0 ∧
    (buildCollectorConfig agent sinks signals promPort).keys =
      ["receivers", "processors", "exporters", "service"] ∧
    pipelinesKeys (buildCollectorConfig agent sinks signals promPort) =
      List.filter (fun s => s ∈ signals) ["metrics", "logs", "traces"] := by
  refine ⟨rfl, by simp [buildCollectorConfig, Value.keys], ?_⟩
  by_cases hm : "metrics" ∈ signals <;> by_cases hl : "logs" ∈ signals <;>
    by_cases ht : "traces" ∈ signals <;>
    simp [buildCollectorConfig, pipelinesKeys, Value.lookup, Value.keys,
      List.find?, hm, hl, ht]

/-- C10: the synthesized document depends on the agent only through its
scrape targets — two agents with equal `scrape_targets`, however much they
differ in name, mode, labels, token, project id or sink ids, give the same
document and the same rendered text for the same sinks, signals and
override. -/
theorem C10_agent_noninterference (a1 a2 : Agent) (sinks : List Sink)
    (signals : List String) (promPort : Option Int)
    (h : a1.scrape_targets = a2.scrape_targets) :
    buildCollectorConfig a1 sinks signals promPort =
      buildCollectorConfig a2 sinks signals promPort ∧
    yamlDumpLike (buildCollectorConfig a1 sinks signals promPort) 0 =
      yamlDumpLike (buildCollectorConfig a2 sinks signals promPort) 0 := by
  have hb : buildCollectorConfig a1 sinks signals promPort =
      buildCollectorConfig a2 sinks signals promPort := by
    simp only [buildCollectorConfig, h]
  exact ⟨hb, congrArg (fun v => yamlDumpLike v 0) hb⟩

/-- C10 witness: two concrete agents differing in name, mode, labels,
token, project id and sink ids, both with no scrape targets. -/
theorem C10_agent_noninterference_at_agents :
    buildCollectorConfig plainAgent [otlpSinkA] ["metrics", "logs"] none =
      buildCollectorConfig otherAgent [otlpSinkA] ["metrics", "logs"] none ∧
    yamlDumpLike (buildCollectorConfig plainAgent [otlpSinkA]
        ["metrics", "logs"] none) 0 =
      yamlDumpLike (buildCollectorConfig otherAgent [otlpSinkA]
        ["metrics", "logs"] none) 0 :=
  C10_agent_noninterference plainAgent otherAgent [otlpSinkA]
    ["metrics", "logs"] none rfl

end Aether
